import Mathlib

/-!
Shallow embedding of the gluestick CSV mapping/validation service
(`src/api/lib/manager.py` and `src/api/app.py`).

Modelling conventions:
* A parsed CSV table (a pandas DataFrame read from a CSV file) is a `Table`:
  an ordered header of column names plus a list of rows.  A cell is
  `Option String`: `none` models a missing value (pandas `NaN`, produced by
  an empty CSV field), `some s` models the string-valued cell `s`.
* Python dicts (the mapping, request bodies) are association lists in
  insertion order with unique keys; lookup takes the first matching key.
* The regular-expression engine (`re` via `pandas.Series.str.match`) is an
  external collaborator: the pipeline is parametrised over a matcher
  `rm : String → String → Bool` taking the pattern and the candidate string.
  For concrete claims a concrete matcher for the pattern `^[0-9]+$` is
  supplied below (`digitsEngine`).
* Fallible Python code (KeyError on a missing column, ZeroDivisionError)
  becomes `Option`/`Except`.
-/

/-- A cell of a parsed CSV table: `none` is pandas `NaN` (missing value). -/
abbrev Cell := Option String

/-- A parsed CSV table: ordered column names and data rows. -/
structure Table where
  header : List String
  rows : List (List Cell)
deriving DecidableEq, Repr

/-- One entry of the user-supplied schema: target column name and optional
regular-expression validator (a field dict with keys `col`, `validator`). -/
structure SchemaField where
  col : String
  validator : Option String
deriving DecidableEq, Repr

/-- The user-supplied schema: a dict with a `fields` key holding the ordered
field list. -/
structure Schema where
  fields : List SchemaField
deriving DecidableEq, Repr

/-- Python dict lookup `d[k]` / `d.get(k)`: first entry with the given key
(dict keys are unique, so the first match is the match). -/
def dictLookup : List (String × String) → String → Option String
  | [], _ => none
  | (k, v) :: rest, x => if x = k then some v else dictLookup rest x

/-- The header-rename step of `do_mapping` (manager.py line 134):
`map(lambda x: mapping[x] if x in mapping else x, cols)`. -/
def renameCols (mapping : List (String × String)) (cols : List String) : List String :=
  cols.map (fun x => (dictLookup mapping x).getD x)

/-- The reverse of a mapping, target name → original name (spec §8:
"reverse-renaming"). -/
def reverseMapping (m : List (String × String)) : List (String × String) :=
  m.map (fun p => (p.2, p.1))

/-- `row[col]`: the cell of `row` under the first header column named `c`;
`none` when the column is absent (callers guard for presence). -/
def cellAt : List String → List Cell → String → Cell
  | [], _, _ => none
  | _ :: _, [], _ => none
  | h :: hs, v :: vs, c => if c = h then v else cellAt hs vs c

/-- `df[required_cols]` (manager.py line 151): keep exactly the named columns,
in the given order; a name absent from the header is a pandas `KeyError`,
modelled as `none`. -/
def selectCols (t : Table) (cs : List String) : Option Table :=
  if cs.all (fun c => t.header.contains c) then
    some ⟨cs, t.rows.map (fun r => cs.map (fun c => cellAt t.header r c))⟩
  else none

/-- `df[col].notna() & df[col].str.match(regexp)` for a single row: a missing
value is invalid; otherwise the matcher decides. -/
def cellValid (rm : String → String → Bool) (regexp : String) (cell : Cell) : Bool :=
  match cell with
  | none => false
  | some s => rm regexp s

/-- The validation loop of `do_mapping` (manager.py lines 154-161): for each
schema field carrying a validator, keep only the rows whose value in the
field's column matches; a field naming a column absent from the frame is a
pandas `KeyError`, modelled as `none`. -/
def applyFields (rm : String → String → Bool) : List SchemaField → Table → Option Table
  | [], t => some t
  | f :: rest, t =>
    match f.validator with
    | none => applyFields rm rest t
    | some regexp =>
      if t.header.contains f.col then
        applyFields rm rest
          ⟨t.header, t.rows.filter (fun r => cellValid rm regexp (cellAt t.header r f.col))⟩
      else none

/-- `preview_df` (manager.py lines 199-216): read back at most the first 5
data rows (`nrows=5`) and return a row list whose first element holds the
column names (here injected into cells via `some`) followed by the data
rows, reassembled column by column as in the `iterrows` loop. -/
def preview_df (t : Table) : List (List Cell) :=
  let df : Table := ⟨t.header, t.rows.take 5⟩
  let cols := df.header
  df.rows.foldl (fun acc row => acc ++ [cols.map (fun c => cellAt df.header row c)])
    [cols.map some]

/-- The frame `do_mapping` persists to the `-mod.csv` file with `df.to_csv`
(manager.py lines 120-164): rewrite the header through the mapping (unmapped
names pass through), then, when the mapping has fewer entries than there are
columns, keep only the mapping's target columns, then drop rows failing any
schema validator.  The verbatim copy of the data rows through the rewritten
header file is the identity on the parsed table. -/
def written_df (rm : String → String → Bool) (source : Table)
    (mapping : List (String × String)) (schema : Schema) : Option Table :=
  let cols := source.header
  let newCols := renameCols mapping cols
  let df0 : Table := ⟨newCols, source.rows⟩
  let step1 : Option Table :=
    if mapping.length < cols.length then selectCols df0 (mapping.map Prod.snd)
    else some df0
  match step1 with
  | none => none
  | some df1 => applyFields rm schema.fields df1

/-- `do_mapping` (manager.py lines 120-167) at the table level: compute and
persist the mapped frame, then return it with the preview that
`preview_df` builds by reading the written file back.  When the written
frame has no columns (`to_csv` then emits only blank lines), that
`pd.read_csv` read-back raises `pandas.errors.EmptyDataError` ("No columns
to parse from file"), modelled by the empty-header guard; otherwise the
CSV round-trip is the identity on the parsed table. -/
def do_mapping (rm : String → String → Bool) (source : Table)
    (mapping : List (String × String)) (schema : Schema) :
    Option (Table × List (List Cell)) :=
  match written_df rm source mapping schema with
  | none => none
  | some df2 =>
    if df2.header.isEmpty then none
    else some (df2, preview_df df2)

/-- Modelled from the spec: `util.get_key` (lib/util.py is not under src/).
Spec §4.2 describes it as "resolve the actual column by reverse-looking-up
mapping (target name → source column)" and §9 records that the "source
behavior picks the first match" when several entries share the value; an
absent value is an explicit failure (`none`). -/
def get_key : List (String × String) → String → Option String
  | [], _ => none
  | (k, v) :: rest, x => if v = x then some k else get_key rest x

/-- A failure raised by `validate_mapping`: a missing key/column (Python
KeyError / the explicit failure of the reverse lookup) or the unguarded
`0 / 0` in the percent computation (Python ZeroDivisionError). -/
inductive VError
  | keyError (k : String)
  | divByZero
  | fileNotFound (path : String)
deriving DecidableEq, Repr

/-- One entry of the validation report: the numerator and denominator of
`percent_valid = counts.get(True, 0) / (counts.get(False, 0) + counts.get(True, 0))`
(the `"{:.2%}"` string formatting is external float rendering and is not
modelled) plus the sampled invalid raw values. -/
structure FieldReport where
  validCount : Nat
  totalCount : Nat
  rows : List String
deriving DecidableEq, Repr

/-- The body of the `validate_mapping` loop (manager.py lines 36-60) for one
schema field: `none` when the field has no validator (the field is skipped),
otherwise the report entry for the field's column. -/
def validateField (rm : String → String → Bool) (source : Table)
    (mapping : List (String × String)) (f : SchemaField) :
    Except VError (Option (String × FieldReport)) :=
  match f.validator with
  | none => .ok none
  | some regexp =>
    match get_key mapping f.col with
    | none => .error (.keyError f.col)
    | some srcCol =>
      if source.header.contains srcCol then
        let dfCol : List Cell := source.rows.map (fun r => cellAt source.header r srcCol)
        let valid : List Bool := dfCol.map (cellValid rm regexp)
        let nTrue := valid.count true
        let nFalse := valid.count false
        if nFalse + nTrue = 0 then .error .divByZero
        else
          let invalidData := dfCol.filter (fun c => !(cellValid rm regexp c))
          let invalidRows := (invalidData.map (fun c => c.getD "")).take 6
          .ok (some (f.col, ⟨nTrue, nFalse + nTrue, invalidRows⟩))
      else .error (.keyError srcCol)

/-- The field loop of `validate_mapping`: process the schema fields in order,
propagating the first failure, and collect the report entries. -/
def validateFieldsAcc (rm : String → String → Bool) (source : Table)
    (mapping : List (String × String)) :
    List SchemaField → Except VError (List (String × FieldReport))
  | [] => .ok []
  | f :: rest =>
    match validateField rm source mapping f with
    | .error e => .error e
    | .ok entry =>
      match validateFieldsAcc rm source mapping rest with
      | .error e => .error e
      | .ok tail =>
        match entry with
        | none => .ok tail
        | some kv => .ok (kv :: tail)

/-- `validate_mapping` (manager.py lines 25-62) at the table level: for each
schema field with a validator, reverse-look-up the source column through the
mapping, count matching and non-matching values, and sample the invalid raw
values (missing values rendered as the empty string). -/
def validate_mapping (rm : String → String → Bool) (source : Table)
    (mapping : List (String × String)) (schema : Schema) :
    Except VError (List (String × FieldReport)) :=
  validateFieldsAcc rm source mapping schema.fields

/-- Semantics of the concrete regular expression `^[0-9]+$` under `re.match`
(used by the spec's worked example): the whole string is one or more ASCII
digits (the `$` anchor turns the prefix match into a full match). -/
def digitsFullMatch (s : String) : Bool :=
  !s.isEmpty && s.toList.all (fun c => c.isDigit)

/-- A regex-engine fragment sufficient for the concrete claims: the only
pattern those claims supply is `^[0-9]+$`, interpreted by `digitsFullMatch`. -/
def digitsEngine : String → String → Bool := fun _ s => digitsFullMatch s

/-- The JSON body of `POST /file/{user}/map` as the handler reads it
(app.py lines 123-126): `body.get` of each key. -/
structure MapRequestBody where
  filename : Option String
  mapping : Option (List (String × String))
  schema : Option Schema
deriving Repr

/-- The observable outcome of the `/map` route: HTTP status, the `code` and
`message` fields of the JSON payload, and whether `manager.do_mapping` was
invoked. -/
structure RouteResponse where
  status : Nat
  code : String
  message : Option String
  pipelineInvoked : Bool
deriving DecidableEq, Repr

/-- The `/map` route handler `do_mapping` (app.py lines 120-140),
parametrised over the mapping pipeline it delegates to: when the body has no
`mapping` key it answers 400 with the error payload and never calls the
pipeline; otherwise it calls the pipeline (an uncaught pipeline exception,
modelled by `none`, surfaces as a 500). -/
def do_mapping_route
    (pipeline : Option String → List (String × String) → Option Schema →
      Option (Table × List (List Cell)))
    (body : MapRequestBody) : RouteResponse :=
  match body.mapping with
  | none => ⟨400, "error", some "No mapping Provided", false⟩
  | some m =>
    match pipeline body.filename m body.schema with
    | none => ⟨500, "error", none, true⟩
    | some _ => ⟨200, "success", none, true⟩

/-- A flat-file filesystem state: file contents by path, plus the set of
existing directories (the only directory operation the validator performs is
`os.makedirs(..., exist_ok=True)`). -/
structure FileSystem where
  files : List (String × String)
  dirs : List String
deriving DecidableEq, Repr

/-- `os.makedirs(d, exist_ok=True)`: create the directory if absent. -/
def makedirs (fs : FileSystem) (d : String) : FileSystem :=
  if fs.dirs.contains d then fs else ⟨fs.files, d :: fs.dirs⟩

/-- `establish_dirs` (manager.py lines 14-22): ensure the data directory
exists and return its path. -/
def establish_dirs (fs : FileSystem) (dataDir : String) : FileSystem × String :=
  (makedirs fs dataDir, dataDir)

/-- Read a file's contents from the filesystem state. -/
def readFileFS (fs : FileSystem) (path : String) : Option String :=
  dictLookup fs.files path

/-- One CSV cell as `pd.read_csv` parses it: an empty field is `NaN`. -/
def parseCell (s : String) : Cell :=
  if s = "" then none else some s

/-- A minimal model of `pd.read_csv` on comma-separated text: first
non-blank line is the header, remaining non-blank lines are rows. -/
def parseCsv (content : String) : Table :=
  match (content.splitOn "\n").filter (fun l => !(l == "")) with
  | [] => ⟨[], []⟩
  | h :: rest => ⟨h.splitOn ",", rest.map (fun l => (l.splitOn ",").map parseCell)⟩

/-- `validate_mapping` (manager.py lines 25-62) at the filesystem level:
`establish_dirs`, read the source CSV at `data_dir/user/filename`
(`pd.read_csv`; a missing file raises, modelled as an error), and compute the
report.  The returned state is the state after the call. -/
def validate_mapping_fs (rm : String → String → Bool) (fs : FileSystem)
    (dataDir user filename : String) (mapping : List (String × String))
    (schema : Schema) :
    FileSystem × Except VError (List (String × FieldReport)) :=
  let dirAndPath := establish_dirs fs dataDir
  let fs1 := dirAndPath.fst
  let fromPath := dirAndPath.snd ++ "/" ++ user ++ "/" ++ filename
  match readFileFS fs1 fromPath with
  | none => (fs1, .error (.fileNotFound fromPath))
  | some content => (fs1, validate_mapping rm (parseCsv content) mapping schema)

/-! ### Helper lemmas -/

/-- Renaming through the empty mapping is the identity on the header. -/
theorem renameCols_nil (cols : List String) : renameCols [] cols = cols := by
  simp [renameCols, dictLookup]

/-- A schema whose fields carry no validator leaves the frame unchanged. -/
theorem applyFields_no_validator (rm : String → String → Bool) :
    ∀ (fs : List SchemaField) (t : Table), (∀ f ∈ fs, f.validator = none) →
      applyFields rm fs t = some t := by
  intro fs
  induction fs with
  | nil => intro t _; rfl
  | cons f rest ih =>
    intro t h
    have hf : f.validator = none := h f (List.mem_cons_self f rest)
    simp only [applyFields, hf]
    exact ih t (fun g hg => h g (List.mem_cons_of_mem f hg))

/-- Each validation pass filters rows, so the row count never grows. -/
theorem applyFields_rows_le (rm : String → String → Bool) :
    ∀ (fs : List SchemaField) (t t2 : Table),
      applyFields rm fs t = some t2 → t2.rows.length ≤ t.rows.length := by
  intro fs
  induction fs with
  | nil =>
    intro t t2 h
    simp only [applyFields] at h
    injection h with h
    rw [h]
  | cons f rest ih =>
    intro t t2 h
    simp only [applyFields] at h
    split at h
    · exact ih t t2 h
    · split at h
      · refine le_trans (ih _ t2 h) ?_
        simpa using List.length_filter_le _ t.rows
      · cases h

/-- Column selection keeps the row count. -/
theorem selectCols_rows_length (t : Table) (cs : List String) (t2 : Table)
    (h : selectCols t cs = some t2) : t2.rows.length = t.rows.length := by
  simp only [selectCols] at h
  split at h
  · injection h with h
    rw [← h]
    simp
  · cases h

/-- The frame written to the `-mod` file has at most as many rows as the
source: the header rewrite and the column drop preserve the row count, and
each validator pass filters. -/
theorem written_df_rows_le (rm : String → String → Bool) (source : Table)
    (mapping : List (String × String)) (schema : Schema) (t : Table)
    (h : written_df rm source mapping schema = some t) :
    t.rows.length ≤ source.rows.length := by
  simp only [written_df] at h
  split at h
  · cases h
  · rename_i df1 heq1
    have h2 := applyFields_rows_le rm schema.fields df1 _ h
    have h1 : df1.rows.length = source.rows.length := by
      split at heq1
      · exact selectCols_rows_length ⟨renameCols mapping source.header, source.rows⟩
          (mapping.map Prod.snd) df1 heq1
      · injection heq1 with he
        rw [← he]
    omega

/-- Inversion for `do_mapping`: a successful run returns the preview of the
written table, and the written table has at most as many rows as the source. -/
theorem do_mapping_inv (rm : String → String → Bool) (source : Table)
    (mapping : List (String × String)) (schema : Schema) (t : Table)
    (pv : List (List Cell))
    (h : do_mapping rm source mapping schema = some (t, pv)) :
    pv = preview_df t ∧ t.rows.length ≤ source.rows.length := by
  simp only [do_mapping] at h
  split at h
  · cases h
  · rename_i df2 heq2
    split at h
    · cases h
    · injection h with h
      injection h with ht hpv
      subst ht
      subst hpv
      exact ⟨rfl, written_df_rows_le rm source mapping schema _ heq2⟩

/-- Unfolding `preview_df`: the header row followed by the first five data
rows, each reassembled column by column. -/
theorem preview_df_eq (t : Table) :
    preview_df t = (t.header.map some) ::
      (t.rows.take 5).map (fun row => t.header.map (fun c => cellAt t.header row c)) := by
  have aux : ∀ (rows : List (List Cell)) (init : List (List Cell)),
      rows.foldl (fun acc row => acc ++ [t.header.map (fun c => cellAt t.header row c)]) init
        = init ++ rows.map (fun row => t.header.map (fun c => cellAt t.header row c)) := by
    intro rows
    induction rows with
    | nil => intro init; simp
    | cons r rs ih =>
      intro init
      rw [List.foldl_cons, ih]
      simp
  simp only [preview_df]
  rw [aux]
  simp

/-- A key present among a mapping's keys has a lookup value, and the found
pair is an entry of the mapping. -/
theorem dictLookup_of_mem_keys :
    ∀ (m : List (String × String)) (c : String), c ∈ m.map Prod.fst →
      ∃ v, dictLookup m c = some v ∧ (c, v) ∈ m := by
  intro m
  induction m with
  | nil => intro c hc; simp at hc
  | cons p rest ih =>
    obtain ⟨k, v⟩ := p
    intro c hc
    by_cases h : c = k
    · subst h
      exact ⟨v, by simp [dictLookup], by simp⟩
    · have hc2 : c ∈ rest.map Prod.fst := by
        rcases List.mem_cons.mp hc with h1 | h1
        · exact absurd h1 h
        · exact h1
      obtain ⟨v2, hl, hm⟩ := ih c hc2
      exact ⟨v2, by simp [dictLookup, h, hl], List.mem_cons_of_mem _ hm⟩

/-- When a mapping's values are pairwise distinct, reverse lookup of an
entry's value recovers that entry's key. -/
theorem dictLookup_reverse_of_mem :
    ∀ (m : List (String × String)), (m.map Prod.snd).Nodup →
      ∀ (c v : String), (c, v) ∈ m → dictLookup (reverseMapping m) v = some c := by
  intro m
  induction m with
  | nil => intro _ c v hm; simp at hm
  | cons p rest ih =>
    obtain ⟨k, w⟩ := p
    intro hnd c v hm
    rw [List.map_cons] at hnd
    have hw : w ∉ rest.map Prod.snd := (List.nodup_cons.mp hnd).1
    have hnd2 := (List.nodup_cons.mp hnd).2
    rcases List.mem_cons.mp hm with h1 | h1
    · injection h1 with hc hv
      subst hc
      subst hv
      simp [reverseMapping, dictLookup]
    · have hv : v ≠ w := by
        intro he
        subst he
        exact hw (List.mem_map_of_mem Prod.snd h1)
      simp only [reverseMapping, List.map_cons, dictLookup, if_neg hv]
      exact ih hnd2 c v h1

/-- Rename-then-reverse-rename is the identity on a header whose columns all
appear among the keys of a mapping with pairwise-distinct values. -/
theorem renameCols_reverse_aux (m : List (String × String))
    (hval : (m.map Prod.snd).Nodup) :
    ∀ cols : List String, (∀ c ∈ cols, c ∈ m.map Prod.fst) →
      renameCols (reverseMapping m) (renameCols m cols) = cols := by
  intro cols
  induction cols with
  | nil => intro _; rfl
  | cons c cs ih =>
    intro hkeys
    have hc := hkeys c (List.mem_cons_self c cs)
    obtain ⟨v, hlook, hmem⟩ := dictLookup_of_mem_keys m c hc
    have hrev := dictLookup_reverse_of_mem m hval c v hmem
    have htail := ih (fun x hx => hkeys x (List.mem_cons_of_mem c hx))
    simp only [renameCols, List.map_cons] at htail ⊢
    rw [hlook, Option.getD_some, hrev, Option.getD_some, htail]

/-- The sample list built for one report entry holds at most six values. -/
theorem validateField_sample_le_six (rm : String → String → Bool) (source : Table)
    (mapping : List (String × String)) (f : SchemaField) (kv : String × FieldReport)
    (h : validateField rm source mapping f = .ok (some kv)) :
    kv.2.rows.length ≤ 6 := by
  simp only [validateField] at h
  split at h
  · simp at h
  · split at h
    · simp at h
    · split at h
      · split at h
        · simp at h
        · injection h with h
          injection h with h
          rw [← h]
          exact List.length_take_le ..
      · simp at h

/-- Every entry of the report built by the field loop samples at most six
invalid values. -/
theorem validateFieldsAcc_sample_le_six (rm : String → String → Bool) (source : Table)
    (mapping : List (String × String)) :
    ∀ (fs : List SchemaField) (report : List (String × FieldReport)),
      validateFieldsAcc rm source mapping fs = .ok report →
      ∀ e ∈ report, e.2.rows.length ≤ 6 := by
  intro fs
  induction fs with
  | nil =>
    intro report h e he
    simp only [validateFieldsAcc] at h
    injection h with h
    rw [← h] at he
    simp at he
  | cons f rest ih =>
    intro report h e he
    simp only [validateFieldsAcc] at h
    split at h
    · simp at h
    · rename_i entry hf
      split at h
      · simp at h
      · rename_i tail htail
        split at h
        · injection h with h
          subst h
          exact ih tail htail e he
        · injection h with h
          subst h
          rcases List.mem_cons.mp he with h3 | h3
          · subst h3
            exact validateField_sample_le_six rm source mapping f e hf
          · exact ih tail htail e h3

/-! ### Claims -/

/-- Claim C1, as stated, is false: on the one-column source `a` with a data
row, `do_mapping` with the empty mapping produces no dataset containing the
original columns.  The drop branch fires (`len(mapping) = 0 < len(cols)`),
so the frame written to the `-mod` file keeps only `mapping.values() = []` —
the column `a` is gone — and the call then fails outright when the preview's
read-back hits the zero-column file (`pandas.errors.EmptyDataError`). -/
theorem C1_counterexample :
    written_df digitsEngine ⟨["a"], [[some "1"]]⟩ [] ⟨[]⟩ = some ⟨[], [[]]⟩ ∧
    do_mapping digitsEngine ⟨["a"], [[some "1"]]⟩ [] ⟨[]⟩ = none ∧
    ¬ (("a" : String) ∈ ([] : List String)) := by
  refine ⟨rfl, rfl, ?_⟩
  decide

/-- Claim C1 (amended): for every source with at least one column and a
schema whose fields carry no validator, `do_mapping` with the empty mapping
drops every column from the frame it writes to the `-mod` file (the written
dataset has the empty header and each row emptied) and then fails with
`EmptyDataError` when `preview_df` reads the zero-column file back — it never
produces a derived dataset retaining the original columns. -/
theorem C1_empty_mapping_drops_all (rm : String → String → Bool) (source : Table)
    (schema : Schema) (hcols : 0 < source.header.length)
    (hschema : ∀ f ∈ schema.fields, f.validator = none) :
    written_df rm source [] schema = some ⟨[], source.rows.map (fun _ => [])⟩ ∧
    do_mapping rm source [] schema = none := by
  have hw : written_df rm source [] schema = some ⟨[], source.rows.map (fun _ => [])⟩ := by
    simp only [written_df, List.length_nil, List.map_nil]
    rw [if_pos hcols]
    have hsel : selectCols ⟨renameCols [] source.header, source.rows⟩ [] =
        some ⟨[], source.rows.map (fun _ => [])⟩ := by
      simp [selectCols]
    simp only [hsel,
      applyFields_no_validator rm schema.fields
        (⟨[], source.rows.map (fun _ => [])⟩ : Table) hschema]
  refine ⟨hw, ?_⟩
  simp [do_mapping, hw]

/-- Witness for the amended claim C1 at a concrete input. -/
theorem C1_empty_mapping_drops_all_witness :
    written_df digitsEngine ⟨["a"], [[some "1"]]⟩ [] ⟨[]⟩ = some ⟨[], [[]]⟩ ∧
    do_mapping digitsEngine ⟨["a"], [[some "1"]]⟩ [] ⟨[]⟩ = none :=
  C1_empty_mapping_drops_all digitsEngine ⟨["a"], [[some "1"]]⟩ ⟨[]⟩ (by decide) (by simp)

/-- Claim C2: on the spec's worked example (source `name,age` with rows
`Alice,30` and `Bob,abc`, schema validating `age` against `^[0-9]+$`, identity
mapping of both columns), `do_mapping` keeps exactly the Alice row. -/
theorem C2_worked_example :
    do_mapping digitsEngine
      ⟨["name", "age"], [[some "Alice", some "30"], [some "Bob", some "abc"]]⟩
      [("name", "name"), ("age", "age")] ⟨[⟨"age", some "^[0-9]+$"⟩]⟩ =
    some (⟨["name", "age"], [[some "Alice", some "30"]]⟩,
      [[some "name", some "age"], [some "Alice", some "30"]]) := by
  rfl

/-- Claim C3, as stated, is false: with seven invalid values in the mapped
column, the report entry samples six raw values, one more than the claimed
bound of five (the loop breaks only once `len(invalid_rows) > 5`, after the
sixth append). -/
theorem C3_counterexample :
    validate_mapping digitsEngine ⟨["x"], List.replicate 7 [some "a"]⟩ [("x", "x")]
      ⟨[⟨"x", some "^[0-9]+$"⟩]⟩ =
      .ok [("x", ⟨0, 7, List.replicate 6 "a"⟩)] ∧
    ¬ ((List.replicate 6 "a").length ≤ 5) :=
  ⟨rfl, by decide⟩

/-- Claim C3 (amended): every entry of a successful validation report
contains a sample of invalid raw values with at most six elements. -/
theorem C3_sample_le_six (rm : String → String → Bool) (source : Table)
    (mapping : List (String × String)) (schema : Schema)
    (report : List (String × FieldReport)) (e : String × FieldReport)
    (h : validate_mapping rm source mapping schema = .ok report) (he : e ∈ report) :
    e.2.rows.length ≤ 6 :=
  validateFieldsAcc_sample_le_six rm source mapping schema.fields report h e he

/-- Witness for the amended claim C3 at a concrete input. -/
theorem C3_sample_le_six_witness :
    (("x", (⟨0, 7, List.replicate 6 "a"⟩ : FieldReport)) : String × FieldReport).2.rows.length ≤ 6 :=
  C3_sample_le_six digitsEngine ⟨["x"], List.replicate 7 [some "a"]⟩ [("x", "x")]
    ⟨[⟨"x", some "^[0-9]+$"⟩]⟩ [("x", ⟨0, 7, List.replicate 6 "a"⟩)]
    ("x", ⟨0, 7, List.replicate 6 "a"⟩) rfl (by decide)

/-- Claim C4, as stated, is false: with original header `a` and the one-entry
mapping sending `b` to `a` (so the mapping's size equals the number of
columns), renaming leaves the header `a` untouched but reverse-renaming then
rewrites it to `b`, so the original header is not restored. -/
theorem C4_counterexample :
    ([("b", "a")] : List (String × String)).length = (["a"] : List String).length ∧
    renameCols (reverseMapping [("b", "a")]) (renameCols [("b", "a")] ["a"]) ≠ ["a"] := by
  decide

/-- Claim C4 (amended): for every mapping whose size equals the number of
original columns, whose keys cover every original column, and whose target
values are pairwise distinct, applying the header-rename step and then
applying it again with the reverse mapping restores the original header. -/
theorem C4_rename_roundtrip (m : List (String × String)) (cols : List String)
    (_hlen : m.length = cols.length) (hval : (m.map Prod.snd).Nodup)
    (hkeys : ∀ c ∈ cols, c ∈ m.map Prod.fst) :
    renameCols (reverseMapping m) (renameCols m cols) = cols :=
  renameCols_reverse_aux m hval cols hkeys

/-- Witness for the amended claim C4 at a concrete input. -/
theorem C4_rename_roundtrip_witness :
    renameCols (reverseMapping [("a", "b")]) (renameCols [("a", "b")] ["a"]) = ["a"] :=
  C4_rename_roundtrip [("a", "b")] ["a"] (by decide) (by decide) (by decide)

/-- Claim C5: whenever `do_mapping` succeeds, the derived table written to
the `-mod` file has at most as many data rows as the source. -/
theorem C5_row_count (rm : String → String → Bool) (source : Table)
    (mapping : List (String × String)) (schema : Schema) (t : Table)
    (pv : List (List Cell))
    (h : do_mapping rm source mapping schema = some (t, pv)) :
    t.rows.length ≤ source.rows.length :=
  (do_mapping_inv rm source mapping schema t pv h).2

/-- Witness for claim C5 at a concrete input. -/
theorem C5_row_count_witness :
    (⟨["name", "age"], [[some "Alice", some "30"]]⟩ : Table).rows.length ≤
      (⟨["name", "age"],
        [[some "Alice", some "30"], [some "Bob", some "abc"]]⟩ : Table).rows.length :=
  C5_row_count digitsEngine
    ⟨["name", "age"], [[some "Alice", some "30"], [some "Bob", some "abc"]]⟩
    [("name", "name"), ("age", "age")] ⟨[⟨"age", some "^[0-9]+$"⟩]⟩
    ⟨["name", "age"], [[some "Alice", some "30"]]⟩
    [[some "name", some "age"], [some "Alice", some "30"]] (by rfl)

/-- Claim C6: the preview returned by a successful run of the mapping
pipeline is the header row followed by at most five data rows, whatever the
size of the source. -/
theorem C6_preview_shape (rm : String → String → Bool) (source : Table)
    (mapping : List (String × String)) (schema : Schema) (t : Table)
    (pv : List (List Cell))
    (h : do_mapping rm source mapping schema = some (t, pv)) :
    pv.head? = some (t.header.map some) ∧ pv.tail.length ≤ 5 := by
  obtain ⟨hpv, -⟩ := do_mapping_inv rm source mapping schema t pv h
  subst hpv
  rw [preview_df_eq]
  refine ⟨rfl, ?_⟩
  simp only [List.tail_cons, List.length_map, List.length_take]
  exact Nat.min_le_left _ _

/-- Witness for claim C6 at a concrete input. -/
theorem C6_preview_shape_witness :
    ([[some "a"], [some "1"]] : List (List Cell)).head? =
        some ((["a"] : List String).map some) ∧
      ([[some "a"], [some "1"]] : List (List Cell)).tail.length ≤ 5 :=
  C6_preview_shape digitsEngine ⟨["a"], [[some "1"]]⟩ [("a", "a")] ⟨[]⟩
    ⟨["a"], [[some "1"]]⟩ [[some "a"], [some "1"]] (by rfl)

/-- Claim C7: a `/map` request whose body has no `mapping` key is answered
with HTTP 400 and the payload `code = error`, `message = No mapping Provided`,
and the mapping pipeline is never invoked. -/
theorem C7_missing_mapping (pipeline : Option String → List (String × String) →
      Option Schema → Option (Table × List (List Cell)))
    (body : MapRequestBody) (h : body.mapping = none) :
    do_mapping_route pipeline body = ⟨400, "error", some "No mapping Provided", false⟩ := by
  simp [do_mapping_route, h]

/-- Witness for claim C7 at a concrete input. -/
theorem C7_missing_mapping_witness :
    do_mapping_route (fun _ _ _ => none) ⟨none, none, none⟩ =
      ⟨400, "error", some "No mapping Provided", false⟩ :=
  C7_missing_mapping (fun _ _ _ => none) ⟨none, none, none⟩ rfl

/-- Claim C8: evaluating the (spec-modelled) reverse lookup `util.get_key` on
a mapping in which two entries share the value `x` silently returns the first
matching key `a` instead of rejecting the ambiguity, and `validate_mapping`
silently validates against that first source column; with no matching entry
the lookup does fail explicitly. -/
theorem C8_reverse_lookup_first_match :
    get_key [("a", "x"), ("b", "x")] "x" = some "a" ∧
    get_key ([] : List (String × String)) "x" = none ∧
    validate_mapping digitsEngine ⟨["a", "b"], [[some "1", some "x"]]⟩
      [("a", "x"), ("b", "x")] ⟨[⟨"x", some "^[0-9]+$"⟩]⟩ =
      .ok [("x", ⟨1, 1, []⟩)] :=
  ⟨rfl, rfl, rfl⟩

/-- Claim C9: `validate_mapping` never writes to or deletes a file: the
filesystem's files after a call are exactly the files before it (the only
state effect is `os.makedirs` on the data directory). -/
theorem C9_read_only (rm : String → String → Bool) (fs : FileSystem)
    (dataDir user filename : String) (mapping : List (String × String))
    (schema : Schema) :
    (validate_mapping_fs rm fs dataDir user filename mapping schema).fst.files = fs.files := by
  have hfiles : ∀ d, (makedirs fs d).files = fs.files := by
    intro d
    simp only [makedirs]
    split <;> rfl
  simp only [validate_mapping_fs, establish_dirs]
  split <;> simp [hfiles]

/-- Claim C10: the percent computation of `validate_mapping` divides by the
total count with no guard, so a source whose mapped column has zero rows
makes it fail with a division-by-zero error. -/
theorem C10_division_by_zero :
    validate_mapping digitsEngine ⟨["x"], []⟩ [("x", "x")] ⟨[⟨"x", some "^[0-9]+$"⟩]⟩ =
      .error .divByZero := by
  rfl
